import Mathlib

/-!
Verification of the tokenizer resolution-and-caching subsystem of
`phase1/tokenizer_service.py`: source resolution, the process-wide
single-slot tokenizer cache, load-with-fallback, backend fingerprinting,
and the bulk tokenization handler.

The external collaborators (the tokenizer-loading library, the hash
function, the encoder) are modelled as an explicit `Ext` record of
functions; the environment and the two filesystem probes the code makes
(`os.path.exists(LOCAL_DIR/tokenizer.json)` and `os.path.isdir(LOCAL_DIR)`)
are an `Env` record.  `get_tokenizer` and `tokenize_bulk` are embedded as
state-passing functions over the module-level cache, instrumented with a
trace of load and fingerprint calls so that "no reload happened" is a
provable statement.
-/

namespace TokenizerService

/-- A loaded tokenizer instance; `backendStr` models the serialized backend
state `tok.backend_tokenizer.to_str()`, and `instanceId` distinguishes
separately loaded instances that may share a backend state. -/
structure Tok where
  backendStr : String
  instanceId : Nat := 0
  deriving DecidableEq, Repr

/-- Environment and filesystem facts consulted by `get_tokenizer`:
the `LOCAL_TOKENIZER_DIR` path, the default repository, the `LOCAL_ONLY`
flag, and the two filesystem probes made at lines 65-68. -/
structure Env where
  LOCAL_DIR : String
  DEFAULT_REPO : String
  LOCAL_ONLY : Bool
  localTokJsonExists : Bool
  localDirIsDir : Bool
  deriving DecidableEq, Repr

/-- An exception escaping the service code: either a FastAPI
`HTTPException` with a status code and a detail string, or a raw
(unwrapped) exception carrying only its own message. -/
inductive Err where
  | http (status : Nat) (detail : String)
  | raw (cause : String)
  deriving DecidableEq, Repr

/-- A Python numeric scalar: `isNumpy` records whether it is a
numeric-library type rather than a plain `int`; `int(x)` clears it. -/
structure PyNum where
  isNumpy : Bool
  val : Int
  deriving DecidableEq, Repr

/-- A batch of rows as returned by the encoding object. -/
structure PyRows where
  rows : List (List PyNum)
  deriving DecidableEq, Repr

/-- The encoding object returned by the tokenizer call. -/
structure Encoding where
  input_ids : PyRows
  attention_mask : PyRows
  deriving DecidableEq, Repr

/-- The external collaborators: `load` is `AutoTokenizer.from_pretrained`
(with `local_files_only` as the Bool), `md5` is `hashlib.md5(...).hexdigest()`
on a UTF-8 string, `encode` is the paired-sequence batch call
`tok(prompts, responses, truncation, max_length, ...)`.  Failures are
`Except.error` carrying the exception message. -/
structure Ext where
  load : String → Bool → Except String Tok
  md5 : String → String
  encode : Tok → List String → List String → Bool → Int → Except String Encoding

/-- The module-level cache slot: `_tokenizer`, `_tok_src`,
`_tok_local_only`, `_tok_md5` (lines 26-29). -/
structure Cache where
  tokenizer : Option Tok
  tok_src : Option String
  tok_local_only : Bool
  tok_md5 : Option String
  deriving DecidableEq, Repr

/-- The initial cache state at module import. -/
def Cache.init : Cache := ⟨none, none, false, none⟩

/-- Embedding of `_backend_md5` (lines 40-43): hash of the serialized
backend state. -/
def backend_md5 (ext : Ext) (tok : Tok) : String :=
  ext.md5 tok.backendStr

/-- Python truthiness of `repo or DEFAULT_REPO` for `repo : Optional[str]`:
both `None` and the empty string are falsy. -/
def pyStrOr (repo : Option String) (d : String) : String :=
  match repo with
  | none => d
  | some r => if r = "" then d else r

/-- Python truthiness of `repo : Optional[str]` as a guard. -/
def repoTruthy : Option String → Bool
  | none => false
  | some r => !(r == "")

/-- Source resolution (lines 64-71 of `get_tokenizer`): choose
`(source, local_only)` from the filesystem probes, the environment and
the optional override. -/
def resolveSource (env : Env) (repo : Option String) : String × Bool :=
  if env.localTokJsonExists then
    (env.LOCAL_DIR, env.LOCAL_ONLY || env.localDirIsDir)
  else
    (pyStrOr repo env.DEFAULT_REPO, env.LOCAL_ONLY)

/-- Instrumentation: the `_load_tokenizer(source, local_only)` calls made,
in order, and the number of `_backend_md5` computations. -/
structure Trace where
  loadCalls : List (String × Bool)
  md5Calls : Nat
  deriving DecidableEq, Repr

/-- The empty trace. -/
def Trace.empty : Trace := ⟨[], 0⟩

/-- The 4-tuple `get_tokenizer` returns. -/
structure TokResult where
  tok : Tok
  src : String
  local_only : Bool
  md5 : Option String
  deriving DecidableEq, Repr

/-- Result of one `get_tokenizer` call: the returned tuple or the escaped
exception, the cache state after the call, and the instrumentation trace. -/
structure GetOut where
  res : Except Err TokResult
  cache : Cache
  trace : Trace

/-- A quoted string, as the f-string at line 89 renders the source. -/
def sq (s : String) : String := "\x27" ++ s ++ "\x27"

/-- Embedding of `get_tokenizer` (lines 55-96).  The `hit` computation is
the negation of `needs_load` (lines 73-77) with the cached tokenizer
extracted; the fallback guard at line 84 is `(source == LOCAL_DIR or
local_only) and not LOCAL_ONLY and repo`, with the raw retry exception
propagating unwrapped (line 85) and the no-retry branch raising
HTTPException 500 (line 89). -/
def get_tokenizer (ext : Ext) (env : Env) (repo : Option String) (st : Cache) : GetOut :=
  let source := (resolveSource env repo).1
  let local_only := (resolveSource env repo).2
  let hit : Option Tok :=
    match st.tokenizer with
    | none => none
    | some t =>
        if st.tok_src == some source && st.tok_local_only == local_only then some t
        else none
  match hit with
  | some t =>
      ⟨.ok ⟨t, source, local_only, st.tok_md5⟩, st, Trace.empty⟩
  | none =>
      match ext.load source local_only with
      | .ok tok =>
          ⟨.ok ⟨tok, source, local_only, some (backend_md5 ext tok)⟩,
           ⟨some tok, some source, local_only, some (backend_md5 ext tok)⟩,
           ⟨[(source, local_only)], 1⟩⟩
      | .error e =>
          match repo with
          | some r =>
              if (source == env.LOCAL_DIR || local_only) && !env.LOCAL_ONLY && !(r == "") then
                match ext.load r false with
                | .ok tok =>
                    ⟨.ok ⟨tok, r, false, some (backend_md5 ext tok)⟩,
                     ⟨some tok, some r, false, some (backend_md5 ext tok)⟩,
                     ⟨[(source, local_only), (r, false)], 1⟩⟩
                | .error e2 =>
                    ⟨.error (.raw e2), st, ⟨[(source, local_only), (r, false)], 0⟩⟩
              else
                ⟨.error (.http 500 ("Failed to load tokenizer from " ++ sq source ++ ": " ++ e)),
                 st, ⟨[(source, local_only)], 0⟩⟩
          | none =>
              ⟨.error (.http 500 ("Failed to load tokenizer from " ++ sq source ++ ": " ++ e)),
               st, ⟨[(source, local_only)], 0⟩⟩

/-- Request body of `/tokenize_bulk` (class TokenizeBulkIn). -/
structure TokenizeBulkIn where
  prompts : List String
  responses : List String
  truncation : Bool := true
  max_length : Int := 512
  repo : Option String := none
  deriving DecidableEq, Repr

/-- Response body of `/tokenize_bulk` (class TokenizeBulkOut). -/
structure TokenizeBulkOut where
  input_ids : List (List PyNum)
  attention_mask : List (List PyNum)
  deriving DecidableEq, Repr

/-- Conversion `int(x)` applied to a numeric scalar: the value survives,
any numeric-library wrapper is stripped. -/
def pyInt (p : PyNum) : PyNum := ⟨false, p.val⟩

/-- Helper `to_py` (lines 156-160): `x.tolist()` if available else
`list(x)`; either way the rows become a plain list. -/
def to_py (x : PyRows) : List (List PyNum) := x.rows

/-- Result of one `tokenize_bulk` call. -/
structure BulkOut where
  res : Except Err TokenizeBulkOut
  cache : Cache
  trace : Trace

/-- Embedding of `tokenize_bulk` (lines 135-165): length validation,
cache lookup, encoding, and per-element `int` conversion of the rows. -/
def tokenize_bulk (ext : Ext) (env : Env) (body : TokenizeBulkIn) (st : Cache) : BulkOut :=
  if body.prompts.length != body.responses.length then
    ⟨.error (.http 400 "prompts and responses must have the same length"), st, Trace.empty⟩
  else
    match get_tokenizer ext env body.repo st with
    | ⟨.error e, st2, tr⟩ => ⟨.error e, st2, tr⟩
    | ⟨.ok r, st2, tr⟩ =>
        match ext.encode r.tok body.prompts body.responses body.truncation body.max_length with
        | .error e => ⟨.error (.http 500 ("tokenization failed: " ++ e)), st2, tr⟩
        | .ok enc =>
            ⟨.ok ⟨(to_py enc.input_ids).map (fun seq => seq.map pyInt),
                  (to_py enc.attention_mask).map (fun seq => seq.map pyInt)⟩,
             st2, tr⟩

/-! Concrete instantiations of the external collaborators and the
environment, used to evaluate the embedded functions on closed inputs. -/

/-- A concrete deterministic digest function standing in for md5. -/
def md5Model (s : String) : String := "h(" ++ s ++ ")"

/-- An encoder collaborator that is never reached in the load-path tests. -/
def encUnused (_ : Tok) (_ _ : List String) (_ : Bool) (_ : Int) : Except String Encoding :=
  .error "unused"

/-- A world where only the local directory `ld` loads (in local-only mode). -/
def extLocalOk : Ext :=
  ⟨fun s lo => if s == "ld" && lo then .ok ⟨"A", 0⟩ else .error "miss", md5Model, encUnused⟩

/-- A world where the local artifact is corrupt and only the remote
repository `rr` loads (with network allowed). -/
def extFallbackOk : Ext :=
  ⟨fun s lo => if s == "rr" && !lo then .ok ⟨"B", 1⟩ else .error "corrupt", md5Model, encUnused⟩

/-- A world where every load attempt fails. -/
def extFailAll : Ext :=
  ⟨fun _ _ => .error "boom", md5Model, encUnused⟩

/-- A world where the local directory loads and the encoder returns one
row pair carrying a numeric-library-typed scalar in each row. -/
def extEncOne : Ext :=
  ⟨fun s lo => if s == "ld" && lo then .ok ⟨"A", 0⟩ else .error "miss", md5Model,
   fun _ _ _ _ _ => .ok ⟨⟨[[⟨true, 7⟩, ⟨false, 8⟩]]⟩, ⟨[[⟨false, 1⟩, ⟨true, 1⟩]]⟩⟩⟩

/-- An environment where `tokenizer.json` exists inside the local
directory `ld` (and hence `ld` is a directory); force-local-only is off. -/
def envLocal : Env := ⟨"ld", "dr", false, true, true⟩

/-- An environment with no local artifact and no local directory;
force-local-only is off. -/
def envNoLocal : Env := ⟨"ld", "dr", false, false, false⟩


/-! ## Path lemmas for `get_tokenizer` -/

/-- On a cache miss with a successful initial load, `get_tokenizer`
publishes the freshly loaded tokenizer under the resolved key with a
freshly computed fingerprint. -/
theorem miss_load_ok (ext : Ext) (env : Env) (repo : Option String) (st : Cache) (tok : Tok)
    (hmiss : st.tokenizer = none ∨ st.tok_src ≠ some (resolveSource env repo).1 ∨
             st.tok_local_only ≠ (resolveSource env repo).2)
    (hload : ext.load (resolveSource env repo).1 (resolveSource env repo).2 = .ok tok) :
    get_tokenizer ext env repo st =
      ⟨.ok ⟨tok, (resolveSource env repo).1, (resolveSource env repo).2, some (backend_md5 ext tok)⟩,
       ⟨some tok, some (resolveSource env repo).1, (resolveSource env repo).2, some (backend_md5 ext tok)⟩,
       ⟨[((resolveSource env repo).1, (resolveSource env repo).2)], 1⟩⟩ := by
  cases htok : st.tokenizer with
  | none => simp [get_tokenizer, htok, hload]
  | some t =>
    rcases hmiss with h | h | h
    · rw [htok] at h; simp at h
    · simp [get_tokenizer, htok, hload, h]
    · simp [get_tokenizer, htok, hload, h]

/-- A call whose resolved key coincides with the cached key is a pure
cache hit: the cached tuple is returned, nothing is loaded or hashed. -/
theorem hit_lemma (ext : Ext) (env : Env) (repo : Option String) (st : Cache) (t : Tok)
    (h1 : st.tokenizer = some t)
    (h2 : st.tok_src = some (resolveSource env repo).1)
    (h3 : st.tok_local_only = (resolveSource env repo).2) :
    get_tokenizer ext env repo st =
      ⟨.ok ⟨t, (resolveSource env repo).1, (resolveSource env repo).2, st.tok_md5⟩, st, Trace.empty⟩ := by
  simp [get_tokenizer, h1, h2, h3]

/-- On a cache miss where the initial load fails, the fallback guard of
line 84 holds and the retry against the override succeeds, the override
is published with `local_only = false`. -/
theorem miss_retry_ok (ext : Ext) (env : Env) (st : Cache) (r e : String) (tok : Tok)
    (hr : r ≠ "")
    (hmiss : st.tokenizer = none ∨ st.tok_src ≠ some (resolveSource env (some r)).1 ∨
             st.tok_local_only ≠ (resolveSource env (some r)).2)
    (hcond : (resolveSource env (some r)).1 = env.LOCAL_DIR ∨ (resolveSource env (some r)).2 = true)
    (hforce : env.LOCAL_ONLY = false)
    (hfail : ext.load (resolveSource env (some r)).1 (resolveSource env (some r)).2 = .error e)
    (hretry : ext.load r false = .ok tok) :
    get_tokenizer ext env (some r) st =
      ⟨.ok ⟨tok, r, false, some (backend_md5 ext tok)⟩,
       ⟨some tok, some r, false, some (backend_md5 ext tok)⟩,
       ⟨[((resolveSource env (some r)).1, (resolveSource env (some r)).2), (r, false)], 1⟩⟩ := by
  have hguard : (((resolveSource env (some r)).1 == env.LOCAL_DIR || (resolveSource env (some r)).2)
      && !env.LOCAL_ONLY && !(r == "")) = true := by
    rcases hcond with h | h <;> simp [h, hforce, hr]
  cases htok : st.tokenizer with
  | none => simp [get_tokenizer, htok, hfail, hretry, hguard]
  | some t =>
    rcases hmiss with h | h | h
    · rw [htok] at h; simp at h
    · simp [get_tokenizer, htok, hfail, hretry, hguard, h]
    · simp [get_tokenizer, htok, hfail, hretry, hguard, h]

/-- On a cache miss where both the initial load and the fallback retry
fail, the raw retry exception propagates and the cache is untouched. -/
theorem miss_retry_err (ext : Ext) (env : Env) (st : Cache) (r e e2 : String)
    (hr : r ≠ "")
    (hmiss : st.tokenizer = none ∨ st.tok_src ≠ some (resolveSource env (some r)).1 ∨
             st.tok_local_only ≠ (resolveSource env (some r)).2)
    (hcond : (resolveSource env (some r)).1 = env.LOCAL_DIR ∨ (resolveSource env (some r)).2 = true)
    (hforce : env.LOCAL_ONLY = false)
    (hfail : ext.load (resolveSource env (some r)).1 (resolveSource env (some r)).2 = .error e)
    (hretry : ext.load r false = .error e2) :
    get_tokenizer ext env (some r) st =
      ⟨.error (.raw e2), st,
       ⟨[((resolveSource env (some r)).1, (resolveSource env (some r)).2), (r, false)], 0⟩⟩ := by
  have hguard : (((resolveSource env (some r)).1 == env.LOCAL_DIR || (resolveSource env (some r)).2)
      && !env.LOCAL_ONLY && !(r == "")) = true := by
    rcases hcond with h | h <;> simp [h, hforce, hr]
  cases htok : st.tokenizer with
  | none => simp [get_tokenizer, htok, hfail, hretry, hguard]
  | some t =>
    rcases hmiss with h | h | h
    · rw [htok] at h; simp at h
    · simp [get_tokenizer, htok, hfail, hretry, hguard, h]
    · simp [get_tokenizer, htok, hfail, hretry, hguard, h]

/-- On a cache miss where the initial load fails and the fallback guard
of line 84 does not hold, HTTPException 500 is raised with the offending
source and cause in the detail, and the cache is untouched. -/
theorem miss_noretry (ext : Ext) (env : Env) (repo : Option String) (st : Cache) (e : String)
    (hmiss : st.tokenizer = none ∨ st.tok_src ≠ some (resolveSource env repo).1 ∨
             st.tok_local_only ≠ (resolveSource env repo).2)
    (hfail : ext.load (resolveSource env repo).1 (resolveSource env repo).2 = .error e)
    (hnc : ¬(((resolveSource env repo).1 = env.LOCAL_DIR ∨ (resolveSource env repo).2 = true) ∧
             env.LOCAL_ONLY = false ∧ repoTruthy repo = true)) :
    get_tokenizer ext env repo st =
      ⟨.error (.http 500 ("Failed to load tokenizer from " ++ sq (resolveSource env repo).1 ++ ": " ++ e)),
       st, ⟨[((resolveSource env repo).1, (resolveSource env repo).2)], 0⟩⟩ := by
  have hhit : ∀ t, st.tokenizer = some t →
      (st.tok_src == some (resolveSource env repo).1 && st.tok_local_only == (resolveSource env repo).2) = false := by
    intro t ht
    rcases hmiss with h | h | h
    · rw [ht] at h; simp at h
    · simp [h]
    · simp [h]
  cases hrep : repo with
  | none =>
    cases htok : st.tokenizer with
    | none => simp [get_tokenizer, htok, hrep ▸ hfail]
    | some t => simp [get_tokenizer, htok, hrep ▸ hfail, hrep ▸ hhit t htok]
  | some r =>
    have hguard : (((resolveSource env (some r)).1 == env.LOCAL_DIR || (resolveSource env (some r)).2)
        && !env.LOCAL_ONLY && !(r == "")) = false := by
      rw [hrep] at hnc
      by_contra hb
      simp only [Bool.not_eq_false, Bool.and_eq_true, Bool.or_eq_true, Bool.not_eq_true'] at hb
      obtain ⟨⟨h1, h2⟩, h3⟩ := hb
      apply hnc
      refine ⟨?_, h2, ?_⟩
      · rcases h1 with h | h
        · exact Or.inl (by simpa using h)
        · exact Or.inr h
      · simp [repoTruthy]
        intro hre; rw [hre] at h3; simp at h3
    cases htok : st.tokenizer with
    | none => simp [get_tokenizer, htok, hrep ▸ hfail, hguard]
    | some t => simp [get_tokenizer, htok, hrep ▸ hfail, hguard, hrep ▸ hhit t htok]

/-- Complete branch enumeration for `get_tokenizer`: a call is a cache hit,
a publish of a successful initial load, a publish of a successful fallback
retry, a raw propagation of a failed retry, or an HTTPException 500 when
the retry conditions are not met. -/
theorem get_tokenizer_shape (ext : Ext) (env : Env) (repo : Option String) (st : Cache) :
    (∃ t, st.tokenizer = some t ∧ st.tok_src = some (resolveSource env repo).1 ∧
        st.tok_local_only = (resolveSource env repo).2 ∧ get_tokenizer ext env repo st =
        ⟨.ok ⟨t, (resolveSource env repo).1, (resolveSource env repo).2, st.tok_md5⟩, st, Trace.empty⟩) ∨
    (∃ tok, ext.load (resolveSource env repo).1 (resolveSource env repo).2 = .ok tok ∧
        get_tokenizer ext env repo st =
        ⟨.ok ⟨tok, (resolveSource env repo).1, (resolveSource env repo).2, some (backend_md5 ext tok)⟩,
         ⟨some tok, some (resolveSource env repo).1, (resolveSource env repo).2, some (backend_md5 ext tok)⟩,
         ⟨[((resolveSource env repo).1, (resolveSource env repo).2)], 1⟩⟩) ∨
    (∃ r e tok, repo = some r ∧
        ext.load (resolveSource env repo).1 (resolveSource env repo).2 = .error e ∧
        ext.load r false = .ok tok ∧ get_tokenizer ext env repo st =
        ⟨.ok ⟨tok, r, false, some (backend_md5 ext tok)⟩,
         ⟨some tok, some r, false, some (backend_md5 ext tok)⟩,
         ⟨[((resolveSource env repo).1, (resolveSource env repo).2), (r, false)], 1⟩⟩) ∨
    (∃ r e e2, repo = some r ∧
        ext.load (resolveSource env repo).1 (resolveSource env repo).2 = .error e ∧
        ext.load r false = .error e2 ∧ get_tokenizer ext env repo st =
        ⟨.error (.raw e2), st, ⟨[((resolveSource env repo).1, (resolveSource env repo).2), (r, false)], 0⟩⟩) ∨
    (∃ e, ext.load (resolveSource env repo).1 (resolveSource env repo).2 = .error e ∧
        get_tokenizer ext env repo st =
        ⟨.error (.http 500 ("Failed to load tokenizer from " ++ sq (resolveSource env repo).1 ++ ": " ++ e)),
         st, ⟨[((resolveSource env repo).1, (resolveSource env repo).2)], 0⟩⟩) := by
  by_cases hmiss : st.tokenizer = none ∨ st.tok_src ≠ some (resolveSource env repo).1 ∨
      st.tok_local_only ≠ (resolveSource env repo).2
  · cases hload : ext.load (resolveSource env repo).1 (resolveSource env repo).2 with
    | ok tok =>
      exact Or.inr (Or.inl ⟨tok, rfl, miss_load_ok ext env repo st tok hmiss hload⟩)
    | error e =>
      by_cases hc : ((resolveSource env repo).1 = env.LOCAL_DIR ∨ (resolveSource env repo).2 = true) ∧
          env.LOCAL_ONLY = false ∧ repoTruthy repo = true
      · obtain ⟨hc1, hc2, hc3⟩ := hc
        cases hrep : repo with
        | none => rw [hrep] at hc3; simp [repoTruthy] at hc3
        | some r =>
          rw [hrep] at hc3
          have hr : r ≠ "" := by
            simp [repoTruthy] at hc3
            intro hre; rw [hre] at hc3; simp at hc3
          subst hrep
          cases hretry : ext.load r false with
          | ok tok =>
            exact Or.inr (Or.inr (Or.inl ⟨r, e, tok, rfl, rfl, hretry,
              miss_retry_ok ext env st r e tok hr hmiss hc1 hc2 hload hretry⟩))
          | error e2 =>
            exact Or.inr (Or.inr (Or.inr (Or.inl ⟨r, e, e2, rfl, rfl, hretry,
              miss_retry_err ext env st r e e2 hr hmiss hc1 hc2 hload hretry⟩)))
      · exact Or.inr (Or.inr (Or.inr (Or.inr ⟨e, rfl,
          miss_noretry ext env repo st e hmiss hload hc⟩)))
  · push_neg at hmiss
    obtain ⟨h1, h2, h3⟩ := hmiss
    rcases htok : st.tokenizer with _ | t
    · exact absurd htok h1
    · exact Or.inl ⟨t, rfl, h2, h3, hit_lemma ext env repo st t htok h2 h3⟩

/-- A successful `get_tokenizer` call leaves the cache slot mirroring the
returned tuple, whichever branch produced it. -/
theorem ok_mirrors (ext : Ext) (env : Env) (repo : Option String) (st : Cache) (r : TokResult)
    (h : (get_tokenizer ext env repo st).res = .ok r) :
    (get_tokenizer ext env repo st).cache.tokenizer = some r.tok ∧
    (get_tokenizer ext env repo st).cache.tok_src = some r.src ∧
    (get_tokenizer ext env repo st).cache.tok_local_only = r.local_only ∧
    (get_tokenizer ext env repo st).cache.tok_md5 = r.md5 := by
  rcases get_tokenizer_shape ext env repo st with
      ⟨t, htok, hsrc, hlo, hg⟩ | ⟨tok, _, hg⟩ | ⟨rr, e, tok, _, _, _, hg⟩ |
      ⟨rr, e, e2, _, _, _, hg⟩ | ⟨e, _, hg⟩ <;>
    rw [hg] at h ⊢ <;> simp only [Except.ok.injEq] at h
  · subst h; exact ⟨htok, hsrc, hlo, rfl⟩
  · subst h; exact ⟨rfl, rfl, rfl, rfl⟩
  · subst h; exact ⟨rfl, rfl, rfl, rfl⟩
  · exact absurd h (by simp)
  · exact absurd h (by simp)

/-- Mapping `pyInt` over rows preserves the length of every row, also
through the total `getD` access. -/
theorem getD_map_pyInt_length (l : List (List PyNum)) (i : Nat) :
    ((l.map (fun seq => seq.map pyInt)).getD i []).length = (l.getD i []).length := by
  induction l generalizing i with
  | nil => rfl
  | cons a t ih =>
    cases i with
    | zero => simp [List.getD]
    | succ n => simpa [List.getD] using ih n


/-! ## The claims -/

/-- C1 (amended: additionally require that the first call did not take the
fallback hop, i.e. its returned source and local_only equal the resolved
key).  For consecutive successful `get_tokenizer` calls with the same
override and unchanged filesystem and environment, the second call
performs no load and no re-fingerprinting and returns the exact same
tokenizer, source, local_only and fingerprint, with the cache unchanged. -/
theorem claim_C1_memoization (ext : Ext) (env : Env) (repo : Option String) (st : Cache)
    (r : TokResult)
    (h1 : (get_tokenizer ext env repo st).res = .ok r)
    (h2 : r.src = (resolveSource env repo).1)
    (h3 : r.local_only = (resolveSource env repo).2) :
    get_tokenizer ext env repo ((get_tokenizer ext env repo st).cache) =
      ⟨.ok r, (get_tokenizer ext env repo st).cache, Trace.empty⟩ := by
  obtain ⟨m1, m2, m3, m4⟩ := ok_mirrors ext env repo st r h1
  have hh := hit_lemma ext env repo ((get_tokenizer ext env repo st).cache) r.tok m1
    (by rw [m2, h2]) (by rw [m3, h3])
  rw [hh, m4, ← h2, ← h3]

/-- C1 witness: a local-artifact world where the first call publishes the
local directory; the second call is a pure hit. -/
theorem claim_C1_witness :
    get_tokenizer extLocalOk envLocal none ((get_tokenizer extLocalOk envLocal none Cache.init).cache) =
      ⟨.ok ⟨⟨"A", 0⟩, "ld", true, some (md5Model "A")⟩,
       (get_tokenizer extLocalOk envLocal none Cache.init).cache, Trace.empty⟩ :=
  claim_C1_memoization extLocalOk envLocal none Cache.init
    ⟨⟨"A", 0⟩, "ld", true, some (md5Model "A")⟩ rfl rfl rfl

/-- C1 counterexample: the local artifact exists but is corrupt and a
remote override is supplied.  Both consecutive calls succeed with the
same override and unchanged filesystem, yet the second call performs two
loads and one re-fingerprinting, because the cached key (override,
false) never matches the resolved key (local directory, true): the
claimed strict memoization fails. -/
theorem claim_C1_falsified :
    (get_tokenizer extFallbackOk envLocal (some "rr") Cache.init).res =
        .ok ⟨⟨"B", 1⟩, "rr", false, some (md5Model "B")⟩ ∧
    (get_tokenizer extFallbackOk envLocal (some "rr")
        (get_tokenizer extFallbackOk envLocal (some "rr") Cache.init).cache).res =
        .ok ⟨⟨"B", 1⟩, "rr", false, some (md5Model "B")⟩ ∧
    (get_tokenizer extFallbackOk envLocal (some "rr")
        (get_tokenizer extFallbackOk envLocal (some "rr") Cache.init).cache).trace =
        ⟨[("ld", true), ("rr", false)], 1⟩ ∧
    ([("ld", true), ("rr", false)] : List (String × Bool)) ≠ [] :=
  ⟨rfl, rfl, rfl, by decide⟩

/-- C2 (amended: the override must be non-empty, since the guard at line
84 uses Python truthiness).  If the initial load on a cache miss fails,
the attempted source was the local directory or local_only was true, the
force-local-only setting is off, and a non-empty repository override was
supplied, exactly one retry runs against the override with local_only =
false; on success `get_tokenizer` returns the override as source with
local_only = false. -/
theorem claim_C2_fallback_retry (ext : Ext) (env : Env) (st : Cache) (r e : String) (tok : Tok)
    (hr : r ≠ "")
    (hmiss : st.tokenizer = none ∨ st.tok_src ≠ some (resolveSource env (some r)).1 ∨
             st.tok_local_only ≠ (resolveSource env (some r)).2)
    (hcond : (resolveSource env (some r)).1 = env.LOCAL_DIR ∨ (resolveSource env (some r)).2 = true)
    (hforce : env.LOCAL_ONLY = false)
    (hfail : ext.load (resolveSource env (some r)).1 (resolveSource env (some r)).2 = .error e)
    (hretry : ext.load r false = .ok tok) :
    get_tokenizer ext env (some r) st =
      ⟨.ok ⟨tok, r, false, some (backend_md5 ext tok)⟩,
       ⟨some tok, some r, false, some (backend_md5 ext tok)⟩,
       ⟨[((resolveSource env (some r)).1, (resolveSource env (some r)).2), (r, false)], 1⟩⟩ :=
  miss_retry_ok ext env st r e tok hr hmiss hcond hforce hfail hretry

/-- C2 witness: corrupt local artifact, override `rr` loadable remotely:
the trace shows exactly the initial attempt and the single retry. -/
theorem claim_C2_witness :
    get_tokenizer extFallbackOk envLocal (some "rr") Cache.init =
      ⟨.ok ⟨⟨"B", 1⟩, "rr", false, some (md5Model "B")⟩,
       ⟨some ⟨"B", 1⟩, some "rr", false, some (md5Model "B")⟩,
       ⟨[("ld", true), ("rr", false)], 1⟩⟩ :=
  claim_C2_fallback_retry extFallbackOk envLocal Cache.init "rr" "corrupt" ⟨"B", 1⟩
    (by decide) (Or.inl rfl) (Or.inl rfl) rfl rfl rfl

/-- C2 counterexample: the local artifact is present but corrupt,
force-local-only is off and the override `some ""` is supplied, yet no
retry happens: the only load attempted is the local one and the call
fails with HTTPException 500, because the guard at line 84 treats the
empty-string override as absent. -/
theorem claim_C2_falsified :
    (get_tokenizer extFailAll envLocal (some "") Cache.init).trace.loadCalls = [("ld", true)] ∧
    (get_tokenizer extFailAll envLocal (some "") Cache.init).res =
      .error (.http 500 ("Failed to load tokenizer from " ++ sq "ld" ++ ": boom")) :=
  ⟨rfl, rfl⟩

/-- C3: `get_tokenizer` never publishes a partial cache entry: when the
call fails the cache slot is exactly as before the call, and in every
call the slot is either left untouched or replaced wholesale by a fully
populated entry whose fingerprint is recomputed from its own tokenizer. -/
theorem claim_C3_cache_atomicity (ext : Ext) (env : Env) (repo : Option String) (st : Cache) :
    (∀ e, (get_tokenizer ext env repo st).res = .error e →
        (get_tokenizer ext env repo st).cache = st) ∧
    ((get_tokenizer ext env repo st).cache = st ∨
     ∃ tok src lo, (get_tokenizer ext env repo st).cache =
        ⟨some tok, some src, lo, some (backend_md5 ext tok)⟩) := by
  rcases get_tokenizer_shape ext env repo st with
      ⟨t, _, _, _, hg⟩ | ⟨tok, _, hg⟩ | ⟨rr, e0, tok, _, _, _, hg⟩ |
      ⟨rr, e0, e2, _, _, _, hg⟩ | ⟨e0, _, hg⟩ <;> rw [hg]
  · exact ⟨fun e h => by simp at h, Or.inl rfl⟩
  · exact ⟨fun e h => by simp at h, Or.inr ⟨tok, _, _, rfl⟩⟩
  · exact ⟨fun e h => by simp at h, Or.inr ⟨tok, rr, false, rfl⟩⟩
  · exact ⟨fun e h => rfl, Or.inl rfl⟩
  · exact ⟨fun e h => rfl, Or.inl rfl⟩

/-- C3 witness: a failing load with no retry leaves the initial cache
untouched. -/
theorem claim_C3_witness :
    (get_tokenizer extFailAll envNoLocal none Cache.init).cache = Cache.init :=
  (claim_C3_cache_atomicity extFailAll envNoLocal none Cache.init).1
    (.http 500 ("Failed to load tokenizer from " ++ sq "dr" ++ ": boom")) rfl

/-- C4: when the prompts and responses lists differ in length,
`tokenize_bulk` fails with HTTPException 400; no load is attempted (empty
trace) and the cache is untouched. -/
theorem claim_C4_validation_precedes_load (ext : Ext) (env : Env) (body : TokenizeBulkIn)
    (st : Cache)
    (h : body.prompts.length ≠ body.responses.length) :
    tokenize_bulk ext env body st =
      ⟨.error (.http 400 "prompts and responses must have the same length"), st, Trace.empty⟩ := by
  simp [tokenize_bulk, h]

/-- C4 witness: one prompt against zero responses is rejected before any
tokenizer work. -/
theorem claim_C4_witness :
    tokenize_bulk extFailAll envNoLocal ⟨["a"], [], true, 512, none⟩ Cache.init =
      ⟨.error (.http 400 "prompts and responses must have the same length"), Cache.init, Trace.empty⟩ :=
  claim_C4_validation_precedes_load extFailAll envNoLocal ⟨["a"], [], true, 512, none⟩ Cache.init
    (by decide)

/-- C5 (amended: a supplied empty-string override is treated as absent,
by Python truthiness of `repo or DEFAULT_REPO`).  Resolution is a total
function of the override, the filesystem probes and the environment: if
the local artifact exists, the source is the local directory and
local_only holds iff force-local-only is set or the local directory
exists; otherwise the source is the override when supplied and
non-empty, else the default repository, and local_only is the
force-local-only flag verbatim. -/
theorem claim_C5_resolution (env : Env) (repo : Option String) :
    (env.localTokJsonExists = true →
      (resolveSource env repo).1 = env.LOCAL_DIR ∧
      ((resolveSource env repo).2 = true ↔ (env.LOCAL_ONLY = true ∨ env.localDirIsDir = true))) ∧
    (env.localTokJsonExists = false →
      (resolveSource env repo).2 = env.LOCAL_ONLY ∧
      (∀ r, repo = some r → r ≠ "" → (resolveSource env repo).1 = r) ∧
      ((repo = none ∨ repo = some "") → (resolveSource env repo).1 = env.DEFAULT_REPO)) := by
  constructor
  · intro hj
    simp [resolveSource, hj, Bool.or_eq_true]
  · intro hj
    refine ⟨by simp [resolveSource, hj], ?_, ?_⟩
    · intro r hrep hr
      simp [resolveSource, hj, hrep, pyStrOr, hr]
    · rintro (hrep | hrep) <;> simp [resolveSource, hj, hrep, pyStrOr]

/-- C5 witness: with the artifact present the local directory wins; with
no artifact a non-empty override is the source verbatim. -/
theorem claim_C5_witness :
    ((resolveSource envLocal (some "x")).1 = envLocal.LOCAL_DIR ∧
      ((resolveSource envLocal (some "x")).2 = true ↔
        (envLocal.LOCAL_ONLY = true ∨ envLocal.localDirIsDir = true))) ∧
    ((resolveSource envNoLocal (some "x")).2 = envNoLocal.LOCAL_ONLY ∧
     (resolveSource envNoLocal (some "x")).1 = "x") :=
  ⟨(claim_C5_resolution envLocal (some "x")).1 rfl,
   ((claim_C5_resolution envNoLocal (some "x")).2 rfl).1,
   ((claim_C5_resolution envNoLocal (some "x")).2 rfl).2.1 "x" rfl (by decide)⟩

/-- C5 counterexample: with no local artifact and the override `some ""`
supplied, the resolved source is the default repository, not the
supplied override. -/
theorem claim_C5_falsified :
    (resolveSource envNoLocal (some "")).1 = "dr" ∧ "dr" ≠ "" := ⟨rfl, by decide⟩

/-- C6: for a validated request whose encoding yields one id row and one
mask row per input pair (with per-row matching lengths, as attention
masks have by construction), the response rows match the prompts in
number, each id row matches its mask row in length, and every element is
a plain integer with any numeric-library wrapper stripped. -/
theorem claim_C6_batch_shape (ext : Ext) (env : Env) (body : TokenizeBulkIn) (st : Cache)
    (r : TokResult) (enc : Encoding)
    (hv : body.prompts.length = body.responses.length)
    (hget : (get_tokenizer ext env body.repo st).res = .ok r)
    (henc : ext.encode r.tok body.prompts body.responses body.truncation body.max_length = .ok enc)
    (hlen1 : enc.input_ids.rows.length = body.prompts.length)
    (hlen2 : enc.attention_mask.rows.length = body.prompts.length)
    (hrow : ∀ i, (enc.input_ids.rows.getD i []).length = (enc.attention_mask.rows.getD i []).length) :
    ∃ out : TokenizeBulkOut,
      (tokenize_bulk ext env body st).res = .ok out ∧
      out.input_ids.length = body.prompts.length ∧
      out.attention_mask.length = body.prompts.length ∧
      (∀ i, (out.input_ids.getD i []).length = (out.attention_mask.getD i []).length) ∧
      (∀ row ∈ out.input_ids, ∀ p ∈ row, p.isNumpy = false) ∧
      (∀ row ∈ out.attention_mask, ∀ p ∈ row, p.isNumpy = false) := by
  have hcond : (body.prompts.length != body.responses.length) = false := by simp [hv]
  rcases hg : get_tokenizer ext env body.repo st with ⟨res, c, tr⟩
  rw [hg] at hget
  simp only at hget
  subst hget
  have ht : tokenize_bulk ext env body st =
      ⟨.ok ⟨(to_py enc.input_ids).map (fun seq => seq.map pyInt),
            (to_py enc.attention_mask).map (fun seq => seq.map pyInt)⟩, c, tr⟩ := by
    simp [tokenize_bulk, hcond, hg, henc]
  refine ⟨⟨(to_py enc.input_ids).map (fun seq => seq.map pyInt),
           (to_py enc.attention_mask).map (fun seq => seq.map pyInt)⟩,
          by rw [ht], ?_, ?_, ?_, ?_, ?_⟩
  · simp [to_py, hlen1]
  · simp [to_py, hlen2]
  · intro i
    simp only [to_py]
    rw [getD_map_pyInt_length, getD_map_pyInt_length]
    exact hrow i
  · intro row hr p hp
    simp only [to_py, List.mem_map] at hr
    obtain ⟨row0, -, hrow0⟩ := hr
    rw [← hrow0] at hp
    simp only [List.mem_map] at hp
    obtain ⟨q, -, hq⟩ := hp
    rw [← hq]
    rfl
  · intro row hr p hp
    simp only [to_py, List.mem_map] at hr
    obtain ⟨row0, -, hrow0⟩ := hr
    rw [← hrow0] at hp
    simp only [List.mem_map] at hp
    obtain ⟨q, -, hq⟩ := hp
    rw [← hq]
    rfl

/-- C6 witness: one prompt-response pair encoded into one row pair whose
elements include numeric-library scalars that come out as plain ints. -/
theorem claim_C6_witness :
    ∃ out : TokenizeBulkOut,
      (tokenize_bulk extEncOne envLocal ⟨["Hello"], ["World"], true, 512, none⟩ Cache.init).res =
        .ok out ∧
      out.input_ids.length = (⟨["Hello"], ["World"], true, 512, none⟩ : TokenizeBulkIn).prompts.length ∧
      out.attention_mask.length = (⟨["Hello"], ["World"], true, 512, none⟩ : TokenizeBulkIn).prompts.length ∧
      (∀ i, (out.input_ids.getD i []).length = (out.attention_mask.getD i []).length) ∧
      (∀ row ∈ out.input_ids, ∀ p ∈ row, p.isNumpy = false) ∧
      (∀ row ∈ out.attention_mask, ∀ p ∈ row, p.isNumpy = false) :=
  claim_C6_batch_shape extEncOne envLocal ⟨["Hello"], ["World"], true, 512, none⟩ Cache.init
    ⟨⟨"A", 0⟩, "ld", true, some (md5Model "A")⟩
    ⟨⟨[[⟨true, 7⟩, ⟨false, 8⟩]]⟩, ⟨[[⟨false, 1⟩, ⟨true, 1⟩]]⟩⟩
    rfl rfl rfl rfl rfl (by intro i; cases i <;> simp [List.getD])

/-- C7 (amended: only the no-retry branch wraps the failure in an
HTTPException 500 carrying the offending source and cause; a failed
retry propagates the raw retry exception, without the offending source
attached).  In every call at most two load attempts are made (the single
fallback hop); a failed load with the retry conditions unmet raises
HTTPException 500 naming the source and cause and leaves the cache
untouched; a failed retry propagates the raw second error and leaves the
cache untouched. -/
theorem claim_C7_error_surfacing :
    (∀ (ext : Ext) (env : Env) (repo : Option String) (st : Cache),
      (get_tokenizer ext env repo st).trace.loadCalls.length ≤ 2) ∧
    (∀ (ext : Ext) (env : Env) (repo : Option String) (st : Cache) (e : String),
      (st.tokenizer = none ∨ st.tok_src ≠ some (resolveSource env repo).1 ∨
          st.tok_local_only ≠ (resolveSource env repo).2) →
      ext.load (resolveSource env repo).1 (resolveSource env repo).2 = .error e →
      ¬(((resolveSource env repo).1 = env.LOCAL_DIR ∨ (resolveSource env repo).2 = true) ∧
          env.LOCAL_ONLY = false ∧ repoTruthy repo = true) →
      get_tokenizer ext env repo st =
        ⟨.error (.http 500 ("Failed to load tokenizer from " ++ sq (resolveSource env repo).1 ++ ": " ++ e)),
         st, ⟨[((resolveSource env repo).1, (resolveSource env repo).2)], 0⟩⟩) ∧
    (∀ (ext : Ext) (env : Env) (st : Cache) (r e e2 : String),
      r ≠ "" →
      (st.tokenizer = none ∨ st.tok_src ≠ some (resolveSource env (some r)).1 ∨
          st.tok_local_only ≠ (resolveSource env (some r)).2) →
      ((resolveSource env (some r)).1 = env.LOCAL_DIR ∨ (resolveSource env (some r)).2 = true) →
      env.LOCAL_ONLY = false →
      ext.load (resolveSource env (some r)).1 (resolveSource env (some r)).2 = .error e →
      ext.load r false = .error e2 →
      get_tokenizer ext env (some r) st =
        ⟨.error (.raw e2), st,
         ⟨[((resolveSource env (some r)).1, (resolveSource env (some r)).2), (r, false)], 0⟩⟩) := by
  refine ⟨?_, ?_, ?_⟩
  · intro ext env repo st
    rcases get_tokenizer_shape ext env repo st with
        ⟨t, _, _, _, hg⟩ | ⟨tok, _, hg⟩ | ⟨rr, e0, tok, _, _, _, hg⟩ |
        ⟨rr, e0, e2, _, _, _, hg⟩ | ⟨e0, _, hg⟩ <;> rw [hg] <;> simp [Trace.empty]
  · intro ext env repo st e hmiss hfail hnc
    exact miss_noretry ext env repo st e hmiss hfail hnc
  · intro ext env st r e e2 hr hmiss hcond hforce hfail hretry
    exact miss_retry_err ext env st r e e2 hr hmiss hcond hforce hfail hretry

/-- C7 witness: no local artifact, no override, load fails: the
HTTPException 500 names the default-repository source and the cause, the
cache is untouched, and one single load was attempted. -/
theorem claim_C7_witness :
    get_tokenizer extFailAll envNoLocal none Cache.init =
      ⟨.error (.http 500 ("Failed to load tokenizer from " ++ sq "dr" ++ ": boom")),
       Cache.init, ⟨[("dr", false)], 0⟩⟩ :=
  claim_C7_error_surfacing.2.1 extFailAll envNoLocal none Cache.init "boom"
    (Or.inl rfl) rfl (by decide)

/-- C7 counterexample: local artifact present but corrupt, override `rr`
also unloadable: both attempts are made and the call propagates the raw
second exception, not an HTTPException 500 carrying the offending source
and cause as the claim states for every failure. -/
theorem claim_C7_falsified :
    (get_tokenizer extFailAll envLocal (some "rr") Cache.init).res = .error (.raw "boom") ∧
    (get_tokenizer extFailAll envLocal (some "rr") Cache.init).trace =
      ⟨[("ld", true), ("rr", false)], 0⟩ ∧
    Err.raw "boom" ≠ Err.http 500 ("Failed to load tokenizer from " ++ sq "rr" ++ ": boom") :=
  ⟨rfl, rfl, by decide⟩

/-- C8: the backend fingerprint is a deterministic function of the
serialized backend state: any two tokenizer instances with identical
backend strings receive identical digests. -/
theorem claim_C8_fingerprint_deterministic (ext : Ext) (t1 t2 : Tok)
    (h : t1.backendStr = t2.backendStr) :
    backend_md5 ext t1 = backend_md5 ext t2 := by
  unfold backend_md5
  rw [h]

/-- C8 witness: two distinct instances sharing a backend state hash to
the same digest. -/
theorem claim_C8_witness :
    backend_md5 extLocalOk ⟨"S", 0⟩ = backend_md5 extLocalOk ⟨"S", 1⟩ :=
  claim_C8_fingerprint_deterministic extLocalOk ⟨"S", 0⟩ ⟨"S", 1⟩ rfl

/-- C9: when `tokenizer.json` exists in the local directory (and hence
the directory exists) and the local-only load from the local directory
succeeds, `get_tokenizer` succeeds and returns the local directory as the
source with local_only = true, for every override and every value of the
LOCAL_ONLY setting. -/
theorem claim_C9_local_wins (ext : Ext) (env : Env) (repo : Option String) (st : Cache)
    (hjson : env.localTokJsonExists = true)
    (hdir : env.localDirIsDir = true)
    (hload : ∃ t, ext.load env.LOCAL_DIR true = .ok t) :
    ∃ t m, (get_tokenizer ext env repo st).res = .ok ⟨t, env.LOCAL_DIR, true, m⟩ := by
  have hres : resolveSource env repo = (env.LOCAL_DIR, true) := by
    simp [resolveSource, hjson, hdir]
  obtain ⟨t0, hl0⟩ := hload
  rcases get_tokenizer_shape ext env repo st with
      ⟨t, _, _, _, hg⟩ | ⟨tok, _, hg⟩ | ⟨rr, e0, tok, _, hfail, _, hg⟩ |
      ⟨rr, e0, e2, _, hfail, _, hg⟩ | ⟨e0, hfail, hg⟩
  · exact ⟨t, st.tok_md5, by rw [hg]; simp [hres]⟩
  · exact ⟨tok, some (backend_md5 ext tok), by rw [hg]; simp [hres]⟩
  · simp [hres, hl0] at hfail
  · simp [hres, hl0] at hfail
  · simp [hres, hl0] at hfail

/-- C9 witness: with the artifact present, a remote override `zz` has no
effect: the local directory is returned with local_only true. -/
theorem claim_C9_witness :
    ∃ t m, (get_tokenizer extLocalOk envLocal (some "zz") Cache.init).res =
      .ok ⟨t, envLocal.LOCAL_DIR, true, m⟩ :=
  claim_C9_local_wins extLocalOk envLocal (some "zz") Cache.init rfl rfl ⟨⟨"A", 0⟩, rfl⟩

end TokenizerService
